import Mathlib

/-!
# xlogging.h : lazy invalid-argument diagnostics

A shallow embedding of `inc/azure_c_shared_utility/xlogging.h` (default
configuration: not NO_LOGGING, not MINIMAL_LOGERROR, not ESP8266_RTOS).

C strings are lists of characters.  The C library (`vsnprintf`, `snprintf`,
`sprintf`, `malloc`, `free`, `printf`) is the environment: its outcomes are
given by a `Libc` value whose answers may depend on the number of library
calls made so far, so that allocation failure, formatting failure and
disagreement between two formatting passes can all be expressed.  A
`va_list` is the list of arguments its cursor still has to yield; the library
also tells in which state a formatting pass leaves the caller's cursor, which
depends on the calling convention.  Every stateful routine passes a `World`
explicitly; the world records the heap and a trace of the events performed.
-/

namespace XLogging

/-- A C string, without its terminating NUL. -/
abbrev CStr := List Char

/-! ## Severity and options (lines 39-59) -/

/-- The enum `LOG_CATEGORY`. -/
inductive LOG_CATEGORY where
  | AZ_LOG_ERROR
  | AZ_LOG_INFO
  | AZ_LOG_TRACE
  deriving DecidableEq, Repr

/-- The constant `LOG_NONE`. -/
def LOG_NONE : Nat := 0x00

/-- The constant `LOG_LINE`. -/
def LOG_LINE : Nat := 0x01

/-! ## The environment -/

/-- A value passed through a variadic tail. -/
inductive Arg where
  | sint (v : Int)
  | uint (v : Nat)
  | str (s : CStr)
  | ptr (a : Nat)
  deriving DecidableEq, Repr

/-- The type `va_list`: the captured variadic tail. -/
abbrev va_list := List Arg

/-- The format macros of `<inttypes.h>` used by the header; their values are
fixed by the platform, not by this repository. -/
structure Inttypes where
  PRId8 : CStr
  PRId16 : CStr
  PRId32 : CStr
  PRId64 : CStr
  PRIu8 : CStr
  PRIu16 : CStr
  PRIu32 : CStr
  PRIu64 : CStr

/-- The values of the `<inttypes.h>` macros on an LP64 glibc platform. -/
def lp64Inttypes : Inttypes where
  PRId8 := "d".toList
  PRId16 := "d".toList
  PRId32 := "d".toList
  PRId64 := "ld".toList
  PRIu8 := "u".toList
  PRIu16 := "u".toList
  PRIu32 := "u".toList
  PRIu64 := "lu".toList

/-- Width of `size_t`. -/
inductive SizeWidth where
  | w32
  | w64
  deriving DecidableEq, Repr

/-- Number of bits of `size_t`. -/
def SizeWidth.bits : SizeWidth → Nat
  | .w32 => 32
  | .w64 => 64

/-- The C library and calling convention as seen by the header.
`format t fmt args` is the text the formatting engine produces on the library
call number `t` (`none` is an encoding error); `malloc_ok t size` tells
whether the allocation requested on call number `t` succeeds.
`va_after t fmt va` is the state in which the formatting pass made on call
number `t` leaves the caller's cursor `va`: the C standard calls it
indeterminate; where a `va_list` is passed by value the pass works on a copy
and the caller's cursor is unchanged, where a `va_list` is an array type
(x86-64 System V) the pass advances the caller's cursor itself. -/
structure Libc where
  size_width : SizeWidth
  format : Nat → CStr → List Arg → Option CStr
  malloc_ok : Nat → Nat → Bool
  va_after : Nat → CStr → va_list → va_list

/-- Decimal digits of a natural number. -/
def decimal (n : Nat) : CStr := Nat.toDigits 10 n

/-- Rendering of one pointer value by the conversion p. -/
def hexPtr (a : Nat) : CStr := '0' :: 'x' :: Nat.toDigits 16 a

/-- Rendering of one argument by the conversion character `d`: `s`, `u`,
`d` and `p` are supported; any other conversion, or an argument of the wrong
kind, is an encoding error. -/
def convert (d : Char) (a : Arg) : Option CStr :=
  if d = 's' then
    match a with
    | .str s => some s
    | _ => none
  else if d = 'u' then
    match a with
    | .uint n => some (decimal n)
    | _ => none
  else if d = 'd' then
    match a with
    | .sint i => some (if i < 0 then '-' :: decimal i.natAbs else decimal i.natAbs)
    | _ => none
  else if d = 'p' then
    match a with
    | .ptr p => some (hexPtr p)
    | _ => none
  else none

/-- Reference semantics of the printf family on the conversions the header
relies on: ordinary characters are copied, `%%` gives a percent sign, and
`%s`, `%u`, `%d`, `%p` consume one argument each (`convert`). -/
def stdFormat : CStr → List Arg → Option CStr
  | [], _ => some []
  | [c], _ => if c = '%' then none else some [c]
  | c :: d :: rest, args =>
    if c = '%' then
      if d = '%' then (stdFormat rest args).map (fun t => '%' :: t)
      else
        match args with
        | [] => none
        | a :: args2 =>
          (convert d a).bind (fun piece => (stdFormat rest args2).map (fun t => piece ++ t))
    else (stdFormat (d :: rest) args).map (fun t => c :: t)

/-- The arguments a pass over `fmt` leaves unread: every conversion other
than `%%` takes one argument off the cursor. -/
def stdRest : CStr → List Arg → List Arg
  | [], args => args
  | [_], args => args
  | c :: d :: rest, args =>
    if c = '%' then
      if d = '%' then stdRest rest args
      else
        match args with
        | [] => []
        | _ :: args2 => stdRest rest args2
    else stdRest (d :: rest) args

/-- A conforming C library on an LP64 platform that passes a `va_list` by
value (AArch64 Linux, for one): formatting follows `stdFormat` on every call,
every allocation succeeds, and a formatting pass leaves the caller's cursor
as it was, so that a second pass over the same `va_list` reads the same
arguments again.  On x86-64 this is not so: see `x86_64_libc`. -/
def stdLibc : Libc where
  size_width := .w64
  format := fun _ fmt args => stdFormat fmt args
  malloc_ok := fun _ _ => true
  va_after := fun _ _ va => va

/-- The C library of glibc on x86-64 System V, where a `va_list` is an array
type: `vsnprintf` advances the caller's own cursor, which afterwards stands
behind the arguments the pass consumed (`stdRest`).  A pass that runs past
the end of the variadic tail reads what happens to lie behind it in the
register save area and on the stack: the values `beyond`. -/
def x86_64_libc (beyond : List Arg) : Libc where
  size_width := .w64
  format := fun _ fmt args => stdFormat fmt (args ++ beyond)
  malloc_ok := fun _ _ => true
  va_after := fun _ fmt va => stdRest fmt va

/-- A library that is `stdLibc` except that its library call number `k`, when
it is a formatting call, fails with an encoding error. -/
def failing_at (k : Nat) : Libc where
  size_width := .w64
  format := fun t fmt args => if t = k then none else stdFormat fmt args
  malloc_ok := fun _ _ => true
  va_after := fun _ _ va => va

/-! ## Type-format resolver (lines 142-153) -/

/-- The function `get_logging_format`: `strcmp(type, "uint32_t") == 0`
selects `"%" PRIu32`, everything else gets `"%p"`. -/
def get_logging_format (I : Inttypes) (type : CStr) : CStr :=
  if type = "uint32_t".toList then
    '%' :: I.PRIu32
  else
    "%p".toList

/-- The table `PRI_<type>` of lines 130-137, read through `PRINT_FORMAT`:
the `<inttypes.h>` macro attached to each fixed-width type name. -/
def PRINT_FORMAT (I : Inttypes) (arg_type : CStr) : Option CStr :=
  if arg_type = "int8_t".toList then some I.PRId8
  else if arg_type = "int16_t".toList then some I.PRId16
  else if arg_type = "int32_t".toList then some I.PRId32
  else if arg_type = "int64_t".toList then some I.PRId64
  else if arg_type = "uint8_t".toList then some I.PRIu8
  else if arg_type = "uint16_t".toList then some I.PRIu16
  else if arg_type = "uint32_t".toList then some I.PRIu32
  else if arg_type = "uint64_t".toList then some I.PRIu64
  else none

/-! ## Events, heap and world -/

/-- The routines whose calls are counted. -/
inductive Fn where
  | get_logging_format
  | construct_log_invalid_args_format_string
  | xlogging_vsprintf_char
  | log_args
  deriving DecidableEq, Repr

/-- Source location handed to the sink: `__FILE__`, `FUNC_NAME`, `__LINE__`
at the place where `LOG` is expanded. -/
structure SrcLoc where
  file : CStr
  func : CStr
  line : Nat
  deriving DecidableEq, Repr

/-- What a run can do that is visible from outside or counted. -/
inductive Event where
  | call (f : Fn)
  | malloc (size : Nat) (res : Option Nat)
  | free (p : Nat)
  | read (p : Nat)
  | write (p : Nat)
  | va_pass (va : va_list)
  | stdout (text : CStr)
  | LOG (cat : LOG_CATEGORY) (options : Nat) (format : CStr) (args : List Arg)
  | sink (l : Nat) (cat : LOG_CATEGORY) (loc : SrcLoc) (options : Nat)
      (format : CStr) (args : List Arg)
  deriving DecidableEq, Repr

/-- A heap block: the size requested from `malloc` and the text stored. -/
structure Buffer where
  cap : Nat
  data : CStr
  deriving DecidableEq, Repr

/-- The state threaded through every routine.  `tick` counts the library
calls answered by `Libc`, `next` is the next fresh address, `log_function`
is what `xlogging_get_log_function()` returns (a sink is named by a number). -/
structure World where
  tick : Nat
  next : Nat
  heap : List (Nat × Buffer)
  trace : List Event
  log_function : Option Nat
  deriving DecidableEq, Repr

/-- A fresh world with the given sink. -/
def World.init (l : Option Nat) : World :=
  ⟨0, 1, [], [], l⟩

/-- Append one event to the trace. -/
def emit (e : Event) (w : World) : World :=
  { w with trace := w.trace ++ [e] }

/-- The text stored in a live block. -/
def World.text (w : World) (p : Nat) : Option CStr :=
  (w.heap.lookup p).map (fun b => b.data)

/-- The size of a live block. -/
def World.cap (w : World) (p : Nat) : Option Nat :=
  (w.heap.lookup p).map (fun b => b.cap)

/-! ## C integers -/

/-- The constant `INT_MAX` of a 32-bit `int`. -/
def INT_MAX : Int := 2147483647

/-- Two's-complement wrap of a mathematical integer into a 32-bit `int`. -/
def wrap_int (x : Int) : Int := (x + 2147483648) % 4294967296 - 2147483648

/-- Conversion of an `int` to `size_t`. -/
def to_size_t (sw : SizeWidth) (x : Int) : Nat := (x % (2 ^ sw.bits : Int)).toNat

/-- The `int` returned by the printf family for a formatting outcome: the
length of the full text, or a negative value on an encoding error or when
the length does not fit an `int`. -/
def ret_of (r : Option CStr) : Int :=
  match r with
  | none => -1
  | some s => if (s.length : Int) ≤ INT_MAX then (s.length : Int) else -1

/-! ## Library calls -/

/-- The call `malloc(size)`. -/
def malloc (L : Libc) (size : Nat) (w : World) : Option Nat × World :=
  if L.malloc_ok w.tick size then
    (some w.next,
      { w with tick := w.tick + 1, next := w.next + 1,
               heap := (w.next, ⟨size, []⟩) :: w.heap,
               trace := w.trace ++ [Event.malloc size (some w.next)] })
  else
    (none, { w with tick := w.tick + 1, trace := w.trace ++ [Event.malloc size none] })

/-- The call `free(p)`. -/
def free (p : Nat) (w : World) : World :=
  { w with heap := w.heap.filter (fun e => e.1 ≠ p), trace := w.trace ++ [Event.free p] }

/-- Store a text into block `p`. -/
def store (p : Nat) (s : CStr) (w : World) : World :=
  { w with heap := w.heap.map (fun e => if e.1 = p then (e.1, { e.2 with data := s }) else e),
           trace := w.trace ++ [Event.write p] }

/-- Read the text of block `p` (empty when the block is not live). -/
def load (p : Nat) (w : World) : CStr × World :=
  ((w.text p).getD [], emit (Event.read p) w)

/-- The call `printf(text)` on the low-level fallback channel. -/
def printf (text : CStr) (w : World) : World :=
  emit (Event.stdout text) w

/-- The call `vsnprintf(buf, size, format, va)`: one formatting pass over the
cursor `va`; with a buffer and a non-zero bound, at most `size - 1`
characters are stored.  The second component is the state in which the call
leaves the caller's cursor. -/
def vsnprintf (L : Libc) (buf : Option Nat) (size : Nat) (format : CStr) (va : va_list)
    (w : World) : Int × va_list × World :=
  let r := L.format w.tick format va
  let w1 := { w with tick := w.tick + 1, trace := w.trace ++ [Event.va_pass va] }
  (ret_of r, L.va_after w.tick format va,
    match buf, r with
    | some p, some s => if size = 0 then w1 else store p (s.take (size - 1)) w1
    | _, _ => w1)

/-- The call `snprintf(NULL, 0, format, args...)`: a dry run over the
call's own arguments. -/
def snprintf_dry (L : Libc) (format : CStr) (args : List Arg) (w : World) : Int × World :=
  (ret_of (L.format w.tick format args), { w with tick := w.tick + 1 })

/-- The call `sprintf(buf, format, args...)`: unbounded rendering into `buf`. -/
def sprintf (L : Libc) (buf : Nat) (format : CStr) (args : List Arg) (w : World) :
    Int × World :=
  let r := L.format w.tick format args
  let w1 := { w with tick := w.tick + 1 }
  (ret_of r,
    match r with
    | some s => store buf s w1
    | none => w1)

/-! ## Severity and sink registry: `LOG`, `LogError` (lines 97-119, 213) -/

/-- The extern `xlogging_get_log_function()`. -/
def xlogging_get_log_function (w : World) : Option Nat := w.log_function

/-- The call `l(log_category, __FILE__, FUNC_NAME, __LINE__, log_options,
format, args...)` through the function pointer `l`. -/
def call_sink (l : Nat) (cat : LOG_CATEGORY) (loc : SrcLoc) (options : Nat) (format : CStr)
    (args : List Arg) (w : World) : World :=
  emit (Event.sink l cat loc options format args) w

/-- The statement `LOG(log_category, log_options, format, ...)`:
`if (0) printf(format, ...)`, then the sink, when one is registered.  That
the statement was executed is itself recorded, as the marker `Event.LOG`. -/
def LOG (loc : SrcLoc) (cat : LOG_CATEGORY) (options : Nat) (format : CStr) (args : List Arg)
    (w : World) : World :=
  let w0 := emit (Event.LOG cat options format args) w
  let w1 := if false then printf ((stdFormat format args).getD []) w0 else w0
  match xlogging_get_log_function w1 with
  | some l => call_sink l cat loc options format args w1
  | none => w1

/-- The statement `LogError(FORMAT, ...)`. -/
def LogError (loc : SrcLoc) (format : CStr) (args : List Arg) (w : World) : World :=
  LOG loc LOG_CATEGORY.AZ_LOG_ERROR LOG_LINE format args w

/-! ## Two-pass string builder (lines 155-183) -/

/-- The function `xlogging_vsprintf_char`.  Both `vsnprintf` calls are given
the one variable `va`, with no `va_copy`: the second pass gets the cursor in
the state the first pass left it in. -/
def xlogging_vsprintf_char (L : Libc) (format : CStr) (va : va_list) (w : World) :
    Option Nat × World :=
  let w := emit (Event.call Fn.xlogging_vsprintf_char) w
  let (neededSize, va, w) := vsnprintf L none 0 format va w
  if neededSize < 0 then
    (none, printf "failure in vsnprintf\n".toList w)
  else
    match malloc L (to_size_t L.size_width (wrap_int (neededSize + 1))) w with
    | (none, w) => (none, printf "failure in malloc\n".toList w)
    | (some result, w) =>
      let (n, _, w) :=
        vsnprintf L (some result) (to_size_t L.size_width (wrap_int (neededSize + 1))) format va w
      if n ≠ neededSize then
        (none, free result (printf "inconsistent vsnprintf behavior\n".toList w))
      else
        (some result, w)

/-! ## Deferred diagnostic composer (lines 185-260) -/

/-- One `(type, name)` pair of the parameter list, already stringified by
`TOSTRING`. -/
structure Param where
  arg_type : CStr
  arg_name : CStr
  deriving DecidableEq, Repr

/-- Modelled from the spec: `macro_utils.h` is included by the header but is not
among the sources.  `FOR_EACH_2_COUNTED(X, t1, n1, ..., tk, nk)` expands to
`X(2k, t1, n1) X(2k-2, t2, n2) ... X(2, tk, nk)`: the pairs in declaration
order, each with the number of list elements still to come, itself included. -/
def FOR_EACH_2_COUNTED {β : Type} (X : Nat → CStr → CStr → β) : List Param → List β
  | [] => []
  | p :: rest => X (2 * (rest.length + 1)) p.arg_type p.arg_name :: FOR_EACH_2_COUNTED X rest

/-- Modelled from the spec: `DEC(n)` of `macro_utils.h`, the predecessor. -/
def DEC (n : Nat) : Nat := n - 1

/-- Modelled from the spec: `IF(c, a, b)` of `macro_utils.h`, `a` when `c`
is not zero and `b` otherwise. -/
def IF {β : Type} (c : Nat) (a b : β) : β := if c = 0 then b else a

/-- The text `TEXT_ARG_IN_CONSTRUCT_FORMAT(count, arg_type, arg_name)`. -/
def TEXT_ARG_IN_CONSTRUCT_FORMAT (count : Nat) (arg_type arg_name : CStr) : CStr :=
  arg_type ++ " ".toList ++ arg_name ++ "=%s".toList ++ IF (DEC (DEC count)) ", ".toList []

/-- The argument `ARG_TYPE_IN_CONSTRUCT_FORMAT(count, arg_type, arg_name)`:
one call of `get_logging_format`. -/
def ARG_TYPE_IN_CONSTRUCT_FORMAT (I : Inttypes) (_count : Nat) (arg_type _arg_name : CStr) :
    Arg :=
  Arg.str (get_logging_format I arg_type)

/-- The format literal of the two formatting calls of
`<name>_construct_log_invalid_args_format_string`. -/
def shape_format (ps : List Param) : CStr :=
  "Invalid arguments: ".toList ++ (FOR_EACH_2_COUNTED TEXT_ARG_IN_CONSTRUCT_FORMAT ps).flatten

/-- Evaluation of the argument list of one formatting call: each
`get_logging_format` call is counted. -/
def shape_args (I : Inttypes) (ps : List Param) (w : World) : List Arg × World :=
  (FOR_EACH_2_COUNTED (ARG_TYPE_IN_CONSTRUCT_FORMAT I) ps,
    { w with trace := w.trace ++ ps.map (fun _ => Event.call Fn.get_logging_format) })

/-- The generated `<name>_construct_log_invalid_args_format_string`. -/
def construct_log_invalid_args_format_string (L : Libc) (I : Inttypes) (ps : List Param)
    (w : World) : Option Nat × World :=
  let w := emit (Event.call Fn.construct_log_invalid_args_format_string) w
  let (args, w) := shape_args I ps w
  let (needed_length, w) := snprintf_dry L (shape_format ps) args w
  if needed_length ≤ 0 then
    (none, w)
  else
    match malloc L (to_size_t L.size_width (wrap_int (needed_length + 1))) w with
    | (some result, w) =>
      let (args, w) := shape_args I ps w
      let (_, w) := sprintf L result (shape_format ps) args w
      (some result, w)
    | (none, w) => (none, w)

/-- The generated `<name>_log_args`.  The two buffers are passed on by
their text; each such use is recorded as a read of the block. -/
def log_args (L : Libc) (I : Inttypes) (loc : SrcLoc) (ps : List Param) (va : va_list)
    (w : World) : World :=
  let w := emit (Event.call Fn.log_args) w
  match construct_log_invalid_args_format_string L I ps w with
  | (none, w) => w
  | (some log_invalid_args_format, w) =>
    let (format, w) := load log_invalid_args_format w
    match xlogging_vsprintf_char L format va w with
    | (some log_text, w) =>
      let (text, w) := load log_text w
      let w := LogError loc "%s".toList [Arg.str text] w
      let w := free log_text w
      free log_invalid_args_format w
    | (none, w) => free log_invalid_args_format w

/-! ## Validated-call wrapper protocol (lines 261-278) -/

/-- The body of a core unit `<name>_code`, as far as the protocol can see
it: it returns a value, possibly after `LOG_INVALID_ARGS()` statements. -/
inductive CoreProg (R : Type) where
  | ret (r : R)
  | LOG_INVALID_ARGS (k : CoreProg R)

/-- Number of `LOG_INVALID_ARGS()` statements a core body executes. -/
def CoreProg.invocations {R : Type} : CoreProg R → Nat
  | .ret _ => 0
  | .LOG_INVALID_ARGS k => k.invocations + 1

/-- Execution of `<name>_code(log_args_func, log_args_va, ...)`:
`LOG_INVALID_ARGS()` is `log_args_func(log_args_va)`. -/
def run_code {R : Type} (log_args_func : va_list → World → World) (log_args_va : va_list) :
    CoreProg R → World → R × World
  | .ret r, w => (r, w)
  | .LOG_INVALID_ARGS k, w => run_code log_args_func log_args_va k (log_args_func log_args_va w)

/-- The generated shim `<name>_with_dummy(params..., dummy, ...)`. -/
def with_dummy {R : Type} (L : Libc) (I : Inttypes) (loc : SrcLoc) (ps : List Param)
    (code : List Arg → CoreProg R) (params : List Arg) (_dummy : Int) (tail : List Arg)
    (w : World) : R × World :=
  let va : va_list := tail
  let ret := run_code (log_args L I loc ps) va (code params) w
  ret

/-- The generated public entry point `<name>(params...)`. -/
def entry {R : Type} (L : Libc) (I : Inttypes) (loc : SrcLoc) (ps : List Param)
    (code : List Arg → CoreProg R) (params : List Arg) (w : World) : R × World :=
  with_dummy L I loc ps code params 0 params w

/-! ## The message shape as the specification words it -/

/-- The message shape in the words of the specification: one piece
`<type> <name>=` followed by the resolved specifier for each parameter. -/
def spec_pieces (I : Inttypes) (ps : List Param) : List CStr :=
  ps.map (fun p => p.arg_type ++ " ".toList ++ p.arg_name ++ "=".toList ++
    get_logging_format I p.arg_type)

/-- The message shape in the words of the specification: the header followed
by the pieces joined by a comma and a blank. -/
def spec_shape (I : Inttypes) (ps : List Param) : CStr :=
  "Invalid arguments: ".toList ++ ", ".toList.intercalate (spec_pieces I ps)

/-! ## Reading a trace -/

/-- Addresses returned by the successful allocations of a trace. -/
def allocated (tr : List Event) : List Nat :=
  tr.filterMap (fun e => match e with
    | .malloc _ (some p) => some p
    | _ => none)

/-- Addresses released by a trace. -/
def released (tr : List Event) : List Nat :=
  tr.filterMap (fun e => match e with
    | .free p => some p
    | _ => none)

/-- Sizes requested from the allocator in a trace. -/
def requested (tr : List Event) : List Nat :=
  tr.filterMap (fun e => match e with
    | .malloc size _ => some size
    | _ => none)

/-- Whether an event reads, writes or releases block `p`. -/
def touches (p : Nat) : Event → Bool
  | .read q => q = p
  | .write q => q = p
  | .free q => q = p
  | _ => false

/-- The allocator and block-access events of a trace. -/
def memory_events (tr : List Event) : List Event :=
  tr.filter (fun e => match e with
    | .malloc _ _ => true
    | .free _ => true
    | .read _ => true
    | .write _ => true
    | _ => false)

/-- In a list of events, no block is touched after its release. -/
def released_stay_untouched : List Event → Bool
  | [] => true
  | .free p :: tr => !(tr.any (touches p)) && released_stay_untouched tr
  | _ :: tr => released_stay_untouched tr

/-- No block is read, written or released again after its release. -/
def no_use_after_release (tr : List Event) : Bool :=
  released_stay_untouched (memory_events tr)

/-- Number of formatting passes that traverse a deferred cursor. -/
def va_passes (tr : List Event) : Nat :=
  (tr.filter (fun e => match e with
    | .va_pass _ => true
    | _ => false)).length

/-- The ERROR-severity `LOG` statements executed in a trace: options, format
and arguments of each. -/
def error_emissions (tr : List Event) : List (Nat × CStr × List Arg) :=
  tr.filterMap (fun e => match e with
    | .LOG .AZ_LOG_ERROR options format args => some (options, format, args)
    | _ => none)

/-- The sink invocations of a trace. -/
def sink_calls (tr : List Event) : List Event :=
  tr.filter (fun e => match e with
    | .sink _ _ _ _ _ _ => true
    | _ => false)

/-- The lines written to the low-level fallback channel in a trace. -/
def stdout_lines (tr : List Event) : List CStr :=
  tr.filterMap (fun e => match e with
    | .stdout text => some text
    | _ => none)

/-- Number of calls of routine `f` in a trace. -/
def calls (f : Fn) (tr : List Event) : Nat :=
  tr.count (Event.call f)

/-- Number of calls of the allocator in a trace. -/
def malloc_calls (tr : List Event) : Nat :=
  (requested tr).length

/-! ## Example parameter lists -/

/-- The parameter list `(uint32_t count, const char* name)`. -/
def count_name_params : List Param :=
  [⟨"uint32_t".toList, "count".toList⟩, ⟨"const char*".toList, "name".toList⟩]

/-- The parameter list of `divide(uint32_t a, uint32_t b)`. -/
def divide_params : List Param :=
  [⟨"uint32_t".toList, "a".toList⟩, ⟨"uint32_t".toList, "b".toList⟩]

/-- The error value of the scenario function `divide`. -/
def DIVIDE_ERROR : Int := -1

/-- The core unit of the scenario function `divide(uint32_t a, uint32_t b)`
of the specification: `b == 0` is the invalid-argument condition. -/
def divide_code : List Arg → CoreProg Int
  | [Arg.uint a, Arg.uint b] =>
    if b = 0 then CoreProg.LOG_INVALID_ARGS (CoreProg.ret DIVIDE_ERROR)
    else CoreProg.ret ((a / b : Nat) : Int)
  | _ => CoreProg.ret DIVIDE_ERROR

/-- A source location for the examples. -/
def example_loc : SrcLoc := ⟨"divide.c".toList, "divide_log_args".toList, 10⟩

/-- A text of `INT_MAX` characters. -/
def long_text : CStr := List.replicate 2147483647 'x'

/-! ## Formatting of the shape string -/

theorem stdFormat_cons (c : Char) (rest : CStr) (args : List Arg) (hc : c ≠ '%') :
    stdFormat (c :: rest) args = (stdFormat rest args).map (fun t => c :: t) := by
  cases rest with
  | nil => simp [stdFormat, hc]
  | cons d ds => simp [stdFormat, hc]

theorem stdFormat_literal (lit rest : CStr) (args : List Arg) (h : '%' ∉ lit) :
    stdFormat (lit ++ rest) args = (stdFormat rest args).map (fun t => lit ++ t) := by
  induction lit with
  | nil => simp
  | cons c cs ih =>
    have hc : c ≠ '%' := fun e => h (by simp [e])
    have hcs : '%' ∉ cs := fun e => h (by simp [e])
    simp only [List.cons_append]
    rw [stdFormat_cons _ _ _ hc, ih hcs]
    simp [Option.map_map, Function.comp_def]

theorem stdFormat_percent_s (rest : CStr) (s : CStr) (args : List Arg) :
    stdFormat ('%' :: 's' :: rest) (Arg.str s :: args)
      = (stdFormat rest args).map (fun t => s ++ t) := by
  simp [stdFormat, convert]

theorem stdFormat_text_arg (I : Inttypes) (count : Nat) (p : Param) (rest : CStr)
    (args : List Arg) (h : '%' ∉ p.arg_type ∧ '%' ∉ p.arg_name) :
    stdFormat (TEXT_ARG_IN_CONSTRUCT_FORMAT count p.arg_type p.arg_name ++ rest)
        (ARG_TYPE_IN_CONSTRUCT_FORMAT I count p.arg_type p.arg_name :: args)
      = (stdFormat (IF (DEC (DEC count)) ", ".toList [] ++ rest) args).map
          (fun t => p.arg_type ++ " ".toList ++ p.arg_name ++ "=".toList ++
            get_logging_format I p.arg_type ++ t) := by
  have hlit : '%' ∉ p.arg_type ++ " ".toList ++ p.arg_name ++ "=".toList := by
    simp [h.1, h.2]
  have e : TEXT_ARG_IN_CONSTRUCT_FORMAT count p.arg_type p.arg_name ++ rest
      = (p.arg_type ++ " ".toList ++ p.arg_name ++ "=".toList) ++
          ('%' :: 's' :: (IF (DEC (DEC count)) ", ".toList [] ++ rest)) := by
    simp [TEXT_ARG_IN_CONSTRUCT_FORMAT]
  rw [e, stdFormat_literal _ _ _ hlit, ARG_TYPE_IN_CONSTRUCT_FORMAT, stdFormat_percent_s]
  simp [Option.map_map, Function.comp_def]

theorem stdFormat_shape_body (I : Inttypes) (ps : List Param)
    (h : ∀ p ∈ ps, '%' ∉ p.arg_type ∧ '%' ∉ p.arg_name) :
    stdFormat (FOR_EACH_2_COUNTED TEXT_ARG_IN_CONSTRUCT_FORMAT ps).flatten
        (FOR_EACH_2_COUNTED (ARG_TYPE_IN_CONSTRUCT_FORMAT I) ps)
      = some (", ".toList.intercalate (spec_pieces I ps)) := by
  induction ps with
  | nil => simp [FOR_EACH_2_COUNTED, spec_pieces, stdFormat, List.intercalate]
  | cons p rest ih =>
    have hp := h p (by simp)
    have hrest : ∀ q ∈ rest, '%' ∉ q.arg_type ∧ '%' ∉ q.arg_name :=
      fun q hq => h q (by simp [hq])
    simp only [FOR_EACH_2_COUNTED, List.flatten_cons]
    rw [stdFormat_text_arg I _ p _ _ hp]
    cases rest with
    | nil =>
      simp [FOR_EACH_2_COUNTED, IF, DEC, stdFormat, spec_pieces, List.intercalate]
    | cons q qs =>
      have hsep : IF (DEC (DEC (2 * ((q :: qs).length + 1)))) ", ".toList ([] : CStr)
          = ", ".toList := by
        simp [IF, DEC]
        omega
      have hlit : '%' ∉ ", ".toList := by decide
      rw [hsep, stdFormat_literal _ _ _ hlit, ih hrest]
      simp [spec_pieces, List.intercalate]

theorem stdFormat_shape (I : Inttypes) (ps : List Param)
    (h : ∀ p ∈ ps, '%' ∉ p.arg_type ∧ '%' ∉ p.arg_name) :
    stdFormat (shape_format ps) (FOR_EACH_2_COUNTED (ARG_TYPE_IN_CONSTRUCT_FORMAT I) ps)
      = some (spec_shape I ps) := by
  have hlit : '%' ∉ "Invalid arguments: ".toList := by decide
  rw [shape_format, stdFormat_literal _ _ _ hlit, stdFormat_shape_body I ps h]
  simp [spec_shape]

/-! ## C1 -/

/-- C1 (defect in the code): `get_logging_format` recognises `uint32_t`
only.  For that name it returns `"%" PRIu32`; for each of the seven other
fixed-width type names it returns the generic `"%p"`, although the table
`PRI_<type>` of the same header attaches an `<inttypes.h>` macro to every one
of them; on an LP64 glibc platform the result for `int8_t` differs from
`"%" PRId8`. -/
theorem get_logging_format_only_uint32 (I : Inttypes) :
    get_logging_format I "uint32_t".toList = '%' :: I.PRIu32 ∧
    (get_logging_format I "int8_t".toList = "%p".toList ∧
      PRINT_FORMAT I "int8_t".toList = some I.PRId8) ∧
    (get_logging_format I "int16_t".toList = "%p".toList ∧
      PRINT_FORMAT I "int16_t".toList = some I.PRId16) ∧
    (get_logging_format I "int32_t".toList = "%p".toList ∧
      PRINT_FORMAT I "int32_t".toList = some I.PRId32) ∧
    (get_logging_format I "int64_t".toList = "%p".toList ∧
      PRINT_FORMAT I "int64_t".toList = some I.PRId64) ∧
    (get_logging_format I "uint8_t".toList = "%p".toList ∧
      PRINT_FORMAT I "uint8_t".toList = some I.PRIu8) ∧
    (get_logging_format I "uint16_t".toList = "%p".toList ∧
      PRINT_FORMAT I "uint16_t".toList = some I.PRIu16) ∧
    (get_logging_format I "uint64_t".toList = "%p".toList ∧
      PRINT_FORMAT I "uint64_t".toList = some I.PRIu64) ∧
    get_logging_format lp64Inttypes "int8_t".toList ≠ '%' :: lp64Inttypes.PRId8 := by
  refine ⟨rfl, ⟨rfl, rfl⟩, ⟨rfl, rfl⟩, ⟨rfl, rfl⟩, ⟨rfl, rfl⟩, ⟨rfl, rfl⟩, ⟨rfl, rfl⟩,
    ⟨rfl, rfl⟩, by decide⟩

/-! ## C2 -/

theorem text_after_store (p : Nat) (b : Buffer) (s : CStr) (t n : Nat)
    (h : List (Nat × Buffer)) (tr : List Event) (l : Option Nat) :
    (store p s ⟨t, n, (p, b) :: h, tr, l⟩).text p = some s := by
  simp only [store, World.text, List.map_cons, if_true]
  simp [List.lookup]

theorem cap_after_store (p : Nat) (b : Buffer) (s : CStr) (t n : Nat)
    (h : List (Nat × Buffer)) (tr : List Event) (l : Option Nat) :
    (store p s ⟨t, n, (p, b) :: h, tr, l⟩).cap p = some b.cap := by
  simp only [store, World.cap, List.map_cons, if_true]
  simp [List.lookup]

theorem store_trace (p : Nat) (s : CStr) (w : World) :
    (store p s w).trace = w.trace ++ [Event.write p] := rfl

theorem store_log_function (p : Nat) (s : CStr) (w : World) :
    (store p s w).log_function = w.log_function := rfl

theorem store_next (p : Nat) (s : CStr) (w : World) : (store p s w).next = w.next := rfl

theorem construct_some_text (L : Libc) (I : Inttypes) (ps : List Param)
    (w w' : World) (result : Nat) (s : CStr)
    (hfmt : ∀ t, L.format t (shape_format ps)
      (FOR_EACH_2_COUNTED (ARG_TYPE_IN_CONSTRUCT_FORMAT I) ps) = some s)
    (hret : construct_log_invalid_args_format_string L I ps w = (some result, w')) :
    w'.text result = some s := by
  unfold construct_log_invalid_args_format_string at hret
  simp only [shape_args, snprintf_dry, sprintf, emit, hfmt, malloc] at hret
  split at hret
  · simp at hret
  · split at hret
    · rename_i r w1 heq
      split at heq
      · simp only [Prod.mk.injEq, Option.some.injEq] at heq hret
        obtain ⟨h1, h2⟩ := heq
        obtain ⟨h3, h4⟩ := hret
        subst h2 h4
        rw [← h3, ← h1]
        exact text_after_store _ _ _ _ _ _ _ _
      · simp at heq
    · simp at hret

/-- C2: with a C library whose formatting follows the C standard on `%s`,
for every parameter list (the non-empty ones included) whose stringified types and names hold no
percent sign, whenever `<name>_construct_log_invalid_args_format_string`
returns a non-null string, that string is `"Invalid arguments: "` followed by
the pieces `<type> <name>=<get_logging_format(type)>` in declaration order,
joined by `", "` with no separator after the last. -/
theorem construct_format_string_shape (L : Libc) (I : Inttypes) (ps : List Param)
    (w w' : World) (result : Nat)
    (hL : ∀ t fmt args, L.format t fmt args = stdFormat fmt args)
    (hclean : ∀ p ∈ ps, '%' ∉ p.arg_type ∧ '%' ∉ p.arg_name)
    (hret : construct_log_invalid_args_format_string L I ps w = (some result, w')) :
    w'.text result = some (spec_shape I ps) ∧
    spec_shape I ps = "Invalid arguments: ".toList ++
      ", ".toList.intercalate (ps.map (fun p =>
        p.arg_type ++ " ".toList ++ p.arg_name ++ "=".toList ++
          get_logging_format I p.arg_type)) := by
  refine ⟨?_, rfl⟩
  have hs := stdFormat_shape I ps hclean
  exact construct_some_text L I ps w w' result _ (fun t => by rw [hL, hs]) hret

/-- C2 at the parameter list `(uint32_t count, const char* name)`. -/
theorem construct_format_string_shape_witness :
    (∀ t fmt args, stdLibc.format t fmt args = stdFormat fmt args) ∧
    (∀ p ∈ count_name_params, '%' ∉ p.arg_type ∧ '%' ∉ p.arg_name) ∧
    construct_log_invalid_args_format_string stdLibc lp64Inttypes count_name_params
        (World.init none)
      = (some 1, (construct_log_invalid_args_format_string stdLibc lp64Inttypes
          count_name_params (World.init none)).2) ∧
    ((construct_log_invalid_args_format_string stdLibc lp64Inttypes count_name_params
        (World.init none)).2.text 1
        = some (spec_shape lp64Inttypes count_name_params) ∧
      spec_shape lp64Inttypes count_name_params = "Invalid arguments: ".toList ++
        ", ".toList.intercalate (count_name_params.map (fun p =>
          p.arg_type ++ " ".toList ++ p.arg_name ++ "=".toList ++
            get_logging_format lp64Inttypes p.arg_type))) :=
  ⟨fun _ _ _ => rfl, by decide, by decide,
    construct_format_string_shape stdLibc lp64Inttypes count_name_params (World.init none) _ 1
      (fun _ _ _ => rfl) (by decide) (by decide)⟩

/-- The shape string of `(uint32_t count, const char* name)` on LP64 glibc. -/
theorem spec_shape_count_name :
    spec_shape lp64Inttypes count_name_params =
      "Invalid arguments: uint32_t count=%u, const char* name=%p".toList := by decide
/-! ## C4, C10: the two-pass builder -/

theorem size_request_small (sw : SizeWidth) (n : Int) (h0 : 0 ≤ n) (h1 : n < INT_MAX) :
    (to_size_t sw (wrap_int (n + 1)) : Int) = n + 1 := by
  cases sw <;> simp only [to_size_t, wrap_int, SizeWidth.bits, INT_MAX] at * <;> omega

theorem size_request_covers (sw : SizeWidth) (n : Int) (h0 : 0 ≤ n) (h1 : n ≤ INT_MAX) :
    n + 1 ≤ (to_size_t sw (wrap_int (n + 1)) : Int) := by
  cases sw <;> simp only [to_size_t, wrap_int, SizeWidth.bits, INT_MAX] at * <;> omega
theorem ret_of_le (r : Option CStr) : ret_of r ≤ INT_MAX := by
  unfold ret_of
  split
  · decide
  · split
    · assumption
    · decide

theorem ret_of_some_nonneg (s : CStr) (h : 0 ≤ ret_of (some s)) :
    ret_of (some s) = (s.length : Int) := by
  unfold ret_of at *
  simp only at *
  split at h
  · simp [*]
  · omega

theorem vsprintf_cases (L : Libc) (format : CStr) (va : va_list) (w : World) :
    (ret_of (L.format w.tick format va) < 0 ∧
      xlogging_vsprintf_char L format va w =
        (none, { w with tick := w.tick + 1,
                        trace := w.trace ++ [Event.call Fn.xlogging_vsprintf_char,
                          Event.va_pass va, Event.stdout "failure in vsnprintf\n".toList] })) ∨
    (0 ≤ ret_of (L.format w.tick format va) ∧
      L.malloc_ok (w.tick + 1)
        (to_size_t L.size_width (wrap_int (ret_of (L.format w.tick format va) + 1))) = false ∧
      xlogging_vsprintf_char L format va w =
        (none, { w with tick := w.tick + 2,
                        trace := w.trace ++ [Event.call Fn.xlogging_vsprintf_char,
                          Event.va_pass va,
                          Event.malloc (to_size_t L.size_width
                            (wrap_int (ret_of (L.format w.tick format va) + 1))) none,
                          Event.stdout "failure in malloc\n".toList] })) ∨
    (0 ≤ ret_of (L.format w.tick format va) ∧
      L.malloc_ok (w.tick + 1)
        (to_size_t L.size_width (wrap_int (ret_of (L.format w.tick format va) + 1))) = true ∧
      ret_of (L.format (w.tick + 2) format (L.va_after w.tick format va)) ≠ ret_of (L.format w.tick format va) ∧
      (xlogging_vsprintf_char L format va w).1 = none ∧
      (xlogging_vsprintf_char L format va w).2.log_function = w.log_function ∧
      ((xlogging_vsprintf_char L format va w).2.trace =
          w.trace ++ [Event.call Fn.xlogging_vsprintf_char, Event.va_pass va,
            Event.malloc (to_size_t L.size_width
              (wrap_int (ret_of (L.format w.tick format va) + 1))) (some w.next),
            Event.va_pass (L.va_after w.tick format va),
            Event.stdout "inconsistent vsnprintf behavior\n".toList, Event.free w.next] ∨
        (xlogging_vsprintf_char L format va w).2.trace =
          w.trace ++ [Event.call Fn.xlogging_vsprintf_char, Event.va_pass va,
            Event.malloc (to_size_t L.size_width
              (wrap_int (ret_of (L.format w.tick format va) + 1))) (some w.next),
            Event.va_pass (L.va_after w.tick format va), Event.write w.next,
            Event.stdout "inconsistent vsnprintf behavior\n".toList, Event.free w.next])) ∨
    (0 ≤ ret_of (L.format w.tick format va) ∧
      L.malloc_ok (w.tick + 1)
        (to_size_t L.size_width (wrap_int (ret_of (L.format w.tick format va) + 1))) = true ∧
      ret_of (L.format (w.tick + 2) format (L.va_after w.tick format va)) = ret_of (L.format w.tick format va) ∧
      (xlogging_vsprintf_char L format va w).1 = some w.next ∧
      (xlogging_vsprintf_char L format va w).2.log_function = w.log_function ∧
      (xlogging_vsprintf_char L format va w).2.trace =
          w.trace ++ [Event.call Fn.xlogging_vsprintf_char, Event.va_pass va,
            Event.malloc (to_size_t L.size_width
              (wrap_int (ret_of (L.format w.tick format va) + 1))) (some w.next),
            Event.va_pass (L.va_after w.tick format va), Event.write w.next] ∧
      (xlogging_vsprintf_char L format va w).2.text w.next = L.format (w.tick + 2) format (L.va_after w.tick format va) ∧
      (xlogging_vsprintf_char L format va w).2.cap w.next =
        some (to_size_t L.size_width (wrap_int (ret_of (L.format w.tick format va) + 1)))) := by
  have e2 : w.tick + 1 + 1 = w.tick + 2 := rfl
  simp only [xlogging_vsprintf_char, vsnprintf, emit, printf, malloc, free, e2]
  by_cases h1 : ret_of (L.format w.tick format va) < 0
  · left
    simp [h1]
  · right
    have h0 : 0 ≤ ret_of (L.format w.tick format va) := not_lt.mp h1
    have hle := ret_of_le (L.format w.tick format va)
    have hsz := size_request_covers L.size_width _ h0 hle
    generalize to_size_t L.size_width (wrap_int (ret_of (L.format w.tick format va) + 1)) = sz
      at hsz ⊢
    have hpos : sz ≠ 0 := by omega
    cases hm : L.malloc_ok (w.tick + 1) sz
    · left
      simp [h1, h0, hm]
    · right
      have hnone : ret_of (none : Option CStr) = -1 := rfl
      by_cases h3 : ret_of (L.format (w.tick + 2) format (L.va_after w.tick format va)) = ret_of (L.format w.tick format va)
      · right
        cases hr2 : L.format (w.tick + 2) format (L.va_after w.tick format va) with
        | none =>
          rw [hr2, hnone] at h3
          omega
        | some s2 =>
          rw [hr2] at h3
          have hlen := ret_of_some_nonneg s2 (by rw [h3]; exact h0)
          have htake : List.take (sz - 1) s2 = s2 := by
            apply List.take_of_length_le
            omega
          simp [h1, h0, hm, hr2, h3, hpos, htake, store_trace, store_log_function,
            text_after_store, cap_after_store]
      · left
        cases hr2 : L.format (w.tick + 2) format (L.va_after w.tick format va) with
        | none =>
          rw [hr2] at h3
          simp [h1, h0, hm, hr2, h3]
        | some s2 =>
          rw [hr2] at h3
          simp [h1, h0, hm, hr2, h3, hpos, store_trace, store_log_function]
/-! ## The composer, case by case -/

theorem construct_cases (L : Libc) (I : Inttypes) (ps : List Param) (w : World) :
    (construct_log_invalid_args_format_string L I ps w).2.log_function = w.log_function ∧
    (((construct_log_invalid_args_format_string L I ps w).1 = none ∧
        (construct_log_invalid_args_format_string L I ps w).2.trace =
          w.trace ++ [Event.call Fn.construct_log_invalid_args_format_string] ++
            ps.map (fun _ => Event.call Fn.get_logging_format)) ∨
      (∃ sz, (construct_log_invalid_args_format_string L I ps w).1 = none ∧
        (construct_log_invalid_args_format_string L I ps w).2.trace =
          w.trace ++ [Event.call Fn.construct_log_invalid_args_format_string] ++
            ps.map (fun _ => Event.call Fn.get_logging_format) ++ [Event.malloc sz none]) ∨
      (∃ sz wr, (wr = [] ∨ wr = [Event.write w.next]) ∧
        (construct_log_invalid_args_format_string L I ps w).1 = some w.next ∧
        (construct_log_invalid_args_format_string L I ps w).2.next = w.next + 1 ∧
        (construct_log_invalid_args_format_string L I ps w).2.trace =
          w.trace ++ [Event.call Fn.construct_log_invalid_args_format_string] ++
            ps.map (fun _ => Event.call Fn.get_logging_format) ++
            [Event.malloc sz (some w.next)] ++
            ps.map (fun _ => Event.call Fn.get_logging_format) ++ wr)) := by
  simp only [construct_log_invalid_args_format_string, shape_args, snprintf_dry, sprintf, emit,
    malloc]
  generalize FOR_EACH_2_COUNTED (ARG_TYPE_IN_CONSTRUCT_FORMAT I) ps = args
  generalize shape_format ps = fmt
  by_cases h1 : ret_of (L.format w.tick fmt args) ≤ 0
  · simp [h1]
  · generalize to_size_t L.size_width (wrap_int (ret_of (L.format w.tick fmt args) + 1)) = sz
    cases hm : L.malloc_ok (w.tick + 1) sz
    · simp [h1, hm]
    · cases hr : L.format (w.tick + 1 + 1) fmt args with
      | none => simp [h1, hm, hr]
      | some s => simp [h1, hm, hr, store_trace, store_log_function, store_next]
theorem error_emissions_append (a b : List Event) :
    error_emissions (a ++ b) = error_emissions a ++ error_emissions b := by
  simp [error_emissions]

theorem error_emissions_glf (ps : List Param) :
    error_emissions (ps.map (fun _ => Event.call Fn.get_logging_format)) = [] := by
  induction ps with
  | nil => rfl
  | cons p rest ih => simp [error_emissions]

theorem construct_error_emissions (L : Libc) (I : Inttypes) (ps : List Param) (w : World) :
    error_emissions (construct_log_invalid_args_format_string L I ps w).2.trace
      = error_emissions w.trace := by
  rcases (construct_cases L I ps w).2 with ⟨-, h⟩ | ⟨sz, -, h⟩ | ⟨sz, wr, hwr, -, -, h⟩
  · rw [h]
    simp [error_emissions_append, error_emissions_glf]
    simp [error_emissions]
  · rw [h]
    simp [error_emissions_append, error_emissions_glf]
    simp [error_emissions]
  · rw [h]
    rcases hwr with rfl | rfl <;>
    · simp [error_emissions_append, error_emissions_glf]
      simp [error_emissions]

theorem vsprintf_error_emissions (L : Libc) (format : CStr) (va : va_list) (w : World) :
    error_emissions (xlogging_vsprintf_char L format va w).2.trace
      = error_emissions w.trace := by
  rcases vsprintf_cases L format va w with ⟨-, h⟩ | ⟨-, -, h⟩ | ⟨-, -, -, -, -, h | h⟩ |
    ⟨-, -, -, -, -, h, -⟩
  all_goals
    rw [h]
    simp [error_emissions_append]
    simp [error_emissions]
/-! ## C3 -/

theorem log_args_none (L : Libc) (I : Inttypes) (loc : SrcLoc) (ps : List Param)
    (va : va_list) (w w1 : World)
    (h : construct_log_invalid_args_format_string L I ps (emit (Event.call Fn.log_args) w)
      = (none, w1)) :
    log_args L I loc ps va w = w1 := by
  simp only [log_args, h]

theorem log_args_some_none (L : Libc) (I : Inttypes) (loc : SrcLoc) (ps : List Param)
    (va : va_list) (w w1 w2 : World) (f : Nat)
    (h : construct_log_invalid_args_format_string L I ps (emit (Event.call Fn.log_args) w)
      = (some f, w1))
    (h2 : xlogging_vsprintf_char L (load f w1).1 va (load f w1).2 = (none, w2)) :
    log_args L I loc ps va w = free f w2 := by
  simp only [log_args, h, h2]

theorem log_args_some_some (L : Libc) (I : Inttypes) (loc : SrcLoc) (ps : List Param)
    (va : va_list) (w w1 w2 : World) (f t : Nat)
    (h : construct_log_invalid_args_format_string L I ps (emit (Event.call Fn.log_args) w)
      = (some f, w1))
    (h2 : xlogging_vsprintf_char L (load f w1).1 va (load f w1).2 = (some t, w2)) :
    log_args L I loc ps va w =
      free f (free t (LogError loc "%s".toList [Arg.str (load t w2).1] (load t w2).2)) := by
  simp only [log_args, h, h2]

/-- What `<name>_log_args` emits, in terms of what its two stages return: the
ERROR-severity `LOG` statement is executed once, with format `%s` and the
text of the buffer returned by `xlogging_vsprintf_char`, when both
`<name>_construct_log_invalid_args_format_string` and
`xlogging_vsprintf_char` return non-null, and not at all otherwise. -/
theorem log_args_error_emissions (L : Libc) (I : Inttypes) (loc : SrcLoc)
    (ps : List Param) (va : va_list) (w : World) :
    error_emissions (log_args L I loc ps va w).trace =
      error_emissions w.trace ++
        (match construct_log_invalid_args_format_string L I ps
            (emit (Event.call Fn.log_args) w) with
          | (none, _) => []
          | (some log_invalid_args_format, w1) =>
            match xlogging_vsprintf_char L (load log_invalid_args_format w1).1 va
                (load log_invalid_args_format w1).2 with
            | (none, _) => []
            | (some log_text, w2) =>
              [(LOG_LINE, "%s".toList, [Arg.str ((w2.text log_text).getD [])])]) := by
  have hc := construct_error_emissions L I ps (emit (Event.call Fn.log_args) w)
  have he : error_emissions (emit (Event.call Fn.log_args) w).trace = error_emissions w.trace := by
    simp [emit, error_emissions]
  rw [he] at hc
  rcases hcr : construct_log_invalid_args_format_string L I ps
      (emit (Event.call Fn.log_args) w) with ⟨_ | f, w1⟩
  · rw [hcr] at hc
    rw [log_args_none L I loc ps va w w1 hcr]
    simp only at hc ⊢
    rw [hc]
    simp
  · rw [hcr] at hc
    have hv := vsprintf_error_emissions L (load f w1).1 va (load f w1).2
    have hl : error_emissions (load f w1).2.trace = error_emissions w1.trace := by
      simp [load, emit, error_emissions]
    rw [hl] at hv
    rcases hvr : xlogging_vsprintf_char L (load f w1).1 va (load f w1).2 with ⟨_ | t, w2⟩
    · rw [hvr] at hv
      rw [log_args_some_none L I loc ps va w w1 w2 f hcr hvr]
      simp only [hvr] at hc hv ⊢
      simp only [free, error_emissions_append, hv, hc]
      simp [error_emissions]
    · rw [hvr] at hv
      rw [log_args_some_some L I loc ps va w w1 w2 f t hcr hvr]
      simp only [hvr] at hc hv ⊢
      simp only [free, LogError, LOG, call_sink, load, emit, xlogging_get_log_function]
      cases w2.log_function <;>
      · simp only [error_emissions_append, if_false]
        simp [error_emissions]
        exact hv.trans hc

/-- C3 (defect in the code): `divide(10, 0)` is one invalid-argument event
whose two stages should succeed and yield exactly one ERROR emission holding
`a=10` and `b=0`.  On x86-64 glibc the second `vsnprintf` of
`xlogging_vsprintf_char` is handed the cursor the first one consumed (no
`va_copy`, the defect of C9) and renders what lies behind the variadic tail:
with the values 4196016 and 3221225472 there, the count differs, the
inconsistency line goes to standard output and nothing is emitted, neither
an ERROR `LOG` nor a sink call; with 77 and 5 there, the one line emitted
reads `a=77` and `b=5`.  Besides, a shape string whose `sprintf` failed is
still returned non-null (the result of `sprintf` is discarded), and an ERROR
line with the empty text of that buffer is emitted although the first stage
failed. -/
theorem log_args_divide_scenario_fails :
    (entry (x86_64_libc [Arg.uint 4196016, Arg.uint 3221225472]) lp64Inttypes example_loc
        divide_params divide_code [Arg.uint 10, Arg.uint 0] (World.init (some 7))).1
      = DIVIDE_ERROR ∧
    error_emissions (entry (x86_64_libc [Arg.uint 4196016, Arg.uint 3221225472]) lp64Inttypes
        example_loc divide_params divide_code [Arg.uint 10, Arg.uint 0]
        (World.init (some 7))).2.trace = [] ∧
    sink_calls (entry (x86_64_libc [Arg.uint 4196016, Arg.uint 3221225472]) lp64Inttypes
        example_loc divide_params divide_code [Arg.uint 10, Arg.uint 0]
        (World.init (some 7))).2.trace = [] ∧
    stdout_lines (entry (x86_64_libc [Arg.uint 4196016, Arg.uint 3221225472]) lp64Inttypes
        example_loc divide_params divide_code [Arg.uint 10, Arg.uint 0]
        (World.init (some 7))).2.trace = ["inconsistent vsnprintf behavior\n".toList] ∧
    (entry (x86_64_libc [Arg.uint 4196016, Arg.uint 3221225472]) lp64Inttypes
        example_loc divide_params divide_code [Arg.uint 10, Arg.uint 0]
        (World.init (some 7))).2.trace.filter
          (fun e => e = Event.va_pass [Arg.uint 10, Arg.uint 0] ∨ e = Event.va_pass [])
      = [Event.va_pass [Arg.uint 10, Arg.uint 0], Event.va_pass []] ∧
    error_emissions (entry (x86_64_libc [Arg.uint 77, Arg.uint 5]) lp64Inttypes
        example_loc divide_params divide_code [Arg.uint 10, Arg.uint 0]
        (World.init (some 7))).2.trace =
      [(LOG_LINE, "%s".toList,
        [Arg.str "Invalid arguments: uint32_t a=77, uint32_t b=5".toList])] ∧
    (construct_log_invalid_args_format_string (failing_at 2) lp64Inttypes divide_params
        (World.init (some 7))).1 = some 1 ∧
    error_emissions (log_args (failing_at 2) lp64Inttypes example_loc divide_params
        [Arg.uint 10, Arg.uint 0] (World.init (some 7))).trace =
      [(LOG_LINE, "%s".toList, [Arg.str []])] := by
  refine ⟨by decide, by decide, by decide, by decide, by decide, by decide, ?_, ?_⟩
  · decide
  · decide

/-! ## C4 -/

/-- C4: `xlogging_vsprintf_char` returns NULL exactly when the dry-run pass
reports a negative length, or the allocation (made after a non-negative dry
run) fails, or the rendering pass reports a count different from the dry-run
length; in every other case it returns the block it allocated, and that block
holds the text rendered by the second pass.  The second pass is the library's
answer on the cursor as the first pass left it (`L.va_after`). -/
theorem xlogging_vsprintf_char_null_iff (L : Libc) (format : CStr) (va : va_list)
    (w : World) :
    ((xlogging_vsprintf_char L format va w).1 = none ↔
      (ret_of (L.format w.tick format va) < 0 ∨
        (0 ≤ ret_of (L.format w.tick format va) ∧
          L.malloc_ok (w.tick + 1) (to_size_t L.size_width
            (wrap_int (ret_of (L.format w.tick format va) + 1))) = false) ∨
        (0 ≤ ret_of (L.format w.tick format va) ∧
          L.malloc_ok (w.tick + 1) (to_size_t L.size_width
            (wrap_int (ret_of (L.format w.tick format va) + 1))) = true ∧
          ret_of (L.format (w.tick + 2) format (L.va_after w.tick format va)) ≠ ret_of (L.format w.tick format va)))) ∧
    (∀ result, (xlogging_vsprintf_char L format va w).1 = some result →
      Event.malloc (to_size_t L.size_width
          (wrap_int (ret_of (L.format w.tick format va) + 1))) (some result)
        ∈ (xlogging_vsprintf_char L format va w).2.trace ∧
      (∃ text, L.format (w.tick + 2) format (L.va_after w.tick format va) = some text ∧
        (xlogging_vsprintf_char L format va w).2.text result = some text)) := by
  rcases vsprintf_cases L format va w with ⟨h1, h⟩ | ⟨h0, hm, h⟩ | ⟨h0, hm, h3, hr, -, -⟩ |
    ⟨h0, hm, h3, hr, -, ht, htext, -⟩
  · rw [h]
    simp [h1]
  · rw [h]
    simp [h0, hm]
  · rw [hr]
    simp [h0, hm, h3]
  · rw [hr, ht]
    have hn : ¬ ret_of (L.format w.tick format va) < 0 := not_lt.mpr h0
    refine ⟨by simp [hn, hm, h3], ?_⟩
    intro result hres
    simp only [Option.some.injEq] at hres
    subst hres
    refine ⟨by simp, ?_⟩
    cases hr2 : L.format (w.tick + 2) format (L.va_after w.tick format va) with
    | none =>
      rw [hr2] at h3
      have hnone : ret_of (none : Option CStr) = -1 := rfl
      omega
    | some s => exact ⟨s, rfl, by rw [htext, hr2]⟩
/-! ## C8 -/

theorem allocated_append (a b : List Event) :
    allocated (a ++ b) = allocated a ++ allocated b := by
  simp [allocated]

theorem released_append (a b : List Event) :
    released (a ++ b) = released a ++ released b := by
  simp [released]

theorem memory_events_append (a b : List Event) :
    memory_events (a ++ b) = memory_events a ++ memory_events b := by
  simp [memory_events]

theorem allocated_glf (ps : List Param) :
    allocated (ps.map (fun _ => Event.call Fn.get_logging_format)) = [] := by
  induction ps with
  | nil => rfl
  | cons p rest ih => simp [allocated]

theorem released_glf (ps : List Param) :
    released (ps.map (fun _ => Event.call Fn.get_logging_format)) = [] := by
  induction ps with
  | nil => rfl
  | cons p rest ih => simp [released]

theorem memory_events_glf (ps : List Param) :
    memory_events (ps.map (fun _ => Event.call Fn.get_logging_format)) = [] := by
  induction ps with
  | nil => rfl
  | cons p rest ih => simp [memory_events]

/-- C8: the events an invocation of `<name>_log_args` adds to the trace hold
as many successful allocations as releases, every block allocated is released
exactly once, and no block is read, written or released again after its
release, whatever the outcomes of the formatting passes and allocations. -/
theorem log_args_allocations_balanced (L : Libc) (I : Inttypes) (loc : SrcLoc)
    (ps : List Param) (va : va_list) (w : World) :
    ∃ d, (log_args L I loc ps va w).trace = w.trace ++ d ∧
      (allocated d).length = (released d).length ∧
      (∀ p ∈ allocated d, (released d).count p = 1) ∧
      (allocated d).Nodup ∧
      no_use_after_release d = true := by
  have hcc := construct_cases L I ps (emit (Event.call Fn.log_args) w)
  rcases hcr : construct_log_invalid_args_format_string L I ps
      (emit (Event.call Fn.log_args) w) with ⟨_ | f, w1⟩
  · rw [log_args_none L I loc ps va w w1 hcr]
    rw [hcr] at hcc
    rcases hcc.2 with ⟨-, h⟩ | ⟨sz, -, h⟩ | ⟨sz, wr, -, h, -⟩
    · simp only [emit, List.append_assoc] at h
      refine ⟨_, h, ?_⟩
      simp only [allocated_append, released_append, allocated_glf, released_glf,
        no_use_after_release, memory_events_append, memory_events_glf]
      simp [allocated, released, memory_events, released_stay_untouched]
    · simp only [emit, List.append_assoc] at h
      refine ⟨_, h, ?_⟩
      simp only [allocated_append, released_append, allocated_glf, released_glf,
        no_use_after_release, memory_events_append, memory_events_glf]
      simp [allocated, released, memory_events, released_stay_untouched]
    · simp at h
  · rw [hcr] at hcc
    rcases hcc.2 with ⟨h, -⟩ | ⟨sz, h, -⟩ | ⟨sz, wr, hwr, hf, hnext, htr⟩
    · simp at h
    · simp at h
    simp only [Option.some.injEq, emit] at hf hnext htr
    subst hf
    have hln : (load w.next w1).2.next = w.next + 1 := hnext
    have hlt : (load w.next w1).2.trace = w.trace ++ ([Event.call Fn.log_args,
        Event.call Fn.construct_log_invalid_args_format_string] ++
        (ps.map (fun _ => Event.call Fn.get_logging_format) ++ ([Event.malloc sz (some w.next)] ++
        (ps.map (fun _ => Event.call Fn.get_logging_format) ++ (wr ++ [Event.read w.next]))))) := by
      simp [load, emit, htr]
    have hv := vsprintf_cases L (load w.next w1).1 va (load w.next w1).2
    rcases hvr : xlogging_vsprintf_char L (load w.next w1).1 va (load w.next w1).2
      with ⟨_ | t, w2⟩
    · rw [log_args_some_none L I loc ps va w w1 w2 w.next hcr hvr]
      rw [hvr] at hv
      have hw2 : ∃ d2, w2.trace = (load w.next w1).2.trace ++ d2 ∧
          (d2 = [Event.call Fn.xlogging_vsprintf_char, Event.va_pass va,
              Event.stdout "failure in vsnprintf\n".toList] ∨
            (∃ sz2, d2 = [Event.call Fn.xlogging_vsprintf_char, Event.va_pass va,
              Event.malloc sz2 none, Event.stdout "failure in malloc\n".toList]) ∨
            (∃ sz2 va2, d2 = [Event.call Fn.xlogging_vsprintf_char, Event.va_pass va,
              Event.malloc sz2 (some (w.next + 1)), Event.va_pass va2,
              Event.stdout "inconsistent vsnprintf behavior\n".toList,
              Event.free (w.next + 1)]) ∨
            (∃ sz2 va2, d2 = [Event.call Fn.xlogging_vsprintf_char, Event.va_pass va,
              Event.malloc sz2 (some (w.next + 1)), Event.va_pass va2,
              Event.write (w.next + 1),
              Event.stdout "inconsistent vsnprintf behavior\n".toList,
              Event.free (w.next + 1)])) := by
        rcases hv with ⟨-, h⟩ | ⟨-, -, h⟩ | ⟨-, -, -, -, -, h | h⟩ | ⟨-, -, -, h, -⟩
        · simp only [Prod.mk.injEq, true_and] at h
          exact ⟨_, by rw [h], Or.inl rfl⟩
        · simp only [Prod.mk.injEq, true_and] at h
          exact ⟨_, by rw [h], Or.inr (Or.inl ⟨_, rfl⟩)⟩
        · simp only [hln] at h
          exact ⟨_, h, Or.inr (Or.inr (Or.inl ⟨_, _, rfl⟩))⟩
        · simp only [hln] at h
          exact ⟨_, h, Or.inr (Or.inr (Or.inr ⟨_, _, rfl⟩))⟩
        · simp at h
      obtain ⟨d2, hd2, hshape⟩ := hw2
      clear hv hcc hcr hvr
      rw [hlt] at hd2
      have hfin : (free w.next w2).trace = w.trace ++ ([Event.call Fn.log_args,
          Event.call Fn.construct_log_invalid_args_format_string] ++
          (ps.map (fun _ => Event.call Fn.get_logging_format) ++
          ([Event.malloc sz (some w.next)] ++
          (ps.map (fun _ => Event.call Fn.get_logging_format) ++
          (wr ++ [Event.read w.next])))) ++ d2 ++ [Event.free w.next]) := by
        simp [free, hd2]
      refine ⟨_, hfin, ?_⟩
      rcases hwr with rfl | rfl <;>
        rcases hshape with rfl | ⟨sz2, rfl⟩ | ⟨sz2, va2, rfl⟩ | ⟨sz2, va2, rfl⟩ <;>
      · simp only [allocated_append, released_append, allocated_glf, released_glf,
          no_use_after_release, memory_events_append, memory_events_glf]
        simp [allocated, released, memory_events, released_stay_untouched, touches]
    · rw [log_args_some_some L I loc ps va w w1 w2 w.next t hcr hvr]
      rw [hvr] at hv
      have hw2 : t = w.next + 1 ∧ ∃ sz2 va2, w2.trace = (load w.next w1).2.trace ++
          [Event.call Fn.xlogging_vsprintf_char, Event.va_pass va,
            Event.malloc sz2 (some (w.next + 1)), Event.va_pass va2,
            Event.write (w.next + 1)] := by
        rcases hv with ⟨-, h⟩ | ⟨-, -, h⟩ | ⟨-, -, -, h, -⟩ | ⟨-, -, -, h, -, h2, -⟩
        · simp at h
        · simp at h
        · simp at h
        · simp only [hln, Option.some.injEq] at h h2
          exact ⟨h, _, _, h2⟩
      obtain ⟨ht, sz2, va2, hd2⟩ := hw2
      subst ht
      clear hv hcc hcr hvr
      rw [hlt] at hd2
      have hfin : ∃ ev, (ev = [] ∨ ∃ l, ev = [Event.sink l LOG_CATEGORY.AZ_LOG_ERROR loc
            LOG_LINE "%s".toList [Arg.str (load (w.next + 1) w2).1]]) ∧
          (free w.next (free (w.next + 1) (LogError loc "%s".toList
            [Arg.str (load (w.next + 1) w2).1] (load (w.next + 1) w2).2))).trace =
          w.trace ++ ([Event.call Fn.log_args,
          Event.call Fn.construct_log_invalid_args_format_string] ++
          (ps.map (fun _ => Event.call Fn.get_logging_format) ++
          ([Event.malloc sz (some w.next)] ++
          (ps.map (fun _ => Event.call Fn.get_logging_format) ++
          (wr ++ [Event.read w.next])))) ++
          [Event.call Fn.xlogging_vsprintf_char, Event.va_pass va,
            Event.malloc sz2 (some (w.next + 1)), Event.va_pass va2,
            Event.write (w.next + 1)] ++
          [Event.read (w.next + 1), Event.LOG LOG_CATEGORY.AZ_LOG_ERROR LOG_LINE "%s".toList
            [Arg.str (load (w.next + 1) w2).1]] ++ ev ++
          [Event.free (w.next + 1), Event.free w.next]) := by
        cases hl : w2.log_function with
        | none =>
          refine ⟨[], Or.inl rfl, ?_⟩
          simp [free, LogError, LOG, call_sink, load, emit, xlogging_get_log_function, hl, hd2]
        | some l =>
          refine ⟨_, Or.inr ⟨l, rfl⟩, ?_⟩
          simp [free, LogError, LOG, call_sink, load, emit, xlogging_get_log_function, hl, hd2]
      obtain ⟨ev, hev, hfin⟩ := hfin
      refine ⟨_, hfin, ?_⟩
      rcases hwr with rfl | rfl <;>
        rcases hev with rfl | ⟨l, rfl⟩ <;>
      · simp only [allocated_append, released_append, allocated_glf, released_glf,
          no_use_after_release, memory_events_append, memory_events_glf]
        simp [allocated, released, memory_events, released_stay_untouched, touches]
/-! ## C5, C6: the wrapper protocol -/

theorem run_code_fst {R : Type} (f g : va_list → World → World) (va va' : va_list)
    (prog : CoreProg R) (w w' : World) :
    (run_code f va prog w).1 = (run_code g va' prog w').1 := by
  induction prog generalizing w w' with
  | ret r => rfl
  | LOG_INVALID_ARGS k ih => exact ih _ _

/-- C5: the public entry point returns exactly the value the core unit
returns on the same parameters, whatever callback, cursor and world the core
is run with, hence whatever the diagnostic path did. -/
theorem entry_returns_core_value {R : Type} (L : Libc) (I : Inttypes) (loc : SrcLoc)
    (ps : List Param) (code : List Arg → CoreProg R) (params : List Arg) (w : World)
    (log_args_func : va_list → World → World) (log_args_va : va_list) (w' : World) :
    (entry L I loc ps code params w).1
      = (run_code log_args_func log_args_va (code params) w').1 := by
  unfold entry with_dummy
  exact run_code_fst _ _ _ _ _ _ _

/-- C6: when the core body executes no `LOG_INVALID_ARGS()`, a call of the
public entry point leaves the world as it found it: no call of
`get_logging_format`, of `xlogging_vsprintf_char`, of
`<name>_construct_log_invalid_args_format_string` or of the allocator is
added to the trace. -/
theorem valid_path_formats_nothing {R : Type} (L : Libc) (I : Inttypes) (loc : SrcLoc)
    (ps : List Param) (code : List Arg → CoreProg R) (params : List Arg) (w : World)
    (h : (code params).invocations = 0) :
    (entry L I loc ps code params w).2 = w ∧
    calls Fn.get_logging_format (entry L I loc ps code params w).2.trace
      = calls Fn.get_logging_format w.trace ∧
    calls Fn.xlogging_vsprintf_char (entry L I loc ps code params w).2.trace
      = calls Fn.xlogging_vsprintf_char w.trace ∧
    calls Fn.construct_log_invalid_args_format_string (entry L I loc ps code params w).2.trace
      = calls Fn.construct_log_invalid_args_format_string w.trace ∧
    malloc_calls (entry L I loc ps code params w).2.trace = malloc_calls w.trace := by
  have hw : (entry L I loc ps code params w).2 = w := by
    unfold entry with_dummy
    cases hp : code params with
    | ret r => rfl
    | LOG_INVALID_ARGS k =>
      rw [hp] at h
      simp [CoreProg.invocations] at h
  rw [hw]
  exact ⟨rfl, rfl, rfl, rfl, rfl⟩

/-- C6 at the call `divide(10, 2)`. -/
theorem valid_path_formats_nothing_witness :
    (divide_code [Arg.uint 10, Arg.uint 2]).invocations = 0 ∧
    ((entry stdLibc lp64Inttypes example_loc divide_params divide_code
        [Arg.uint 10, Arg.uint 2] (World.init (some 7))).2 = World.init (some 7) ∧
      calls Fn.get_logging_format (entry stdLibc lp64Inttypes example_loc divide_params
          divide_code [Arg.uint 10, Arg.uint 2] (World.init (some 7))).2.trace
        = calls Fn.get_logging_format (World.init (some 7)).trace ∧
      calls Fn.xlogging_vsprintf_char (entry stdLibc lp64Inttypes example_loc divide_params
          divide_code [Arg.uint 10, Arg.uint 2] (World.init (some 7))).2.trace
        = calls Fn.xlogging_vsprintf_char (World.init (some 7)).trace ∧
      calls Fn.construct_log_invalid_args_format_string (entry stdLibc lp64Inttypes example_loc
          divide_params divide_code [Arg.uint 10, Arg.uint 2] (World.init (some 7))).2.trace
        = calls Fn.construct_log_invalid_args_format_string (World.init (some 7)).trace ∧
      malloc_calls (entry stdLibc lp64Inttypes example_loc divide_params divide_code
          [Arg.uint 10, Arg.uint 2] (World.init (some 7))).2.trace
        = malloc_calls (World.init (some 7)).trace) :=
  ⟨by decide, valid_path_formats_nothing stdLibc lp64Inttypes example_loc divide_params
    divide_code [Arg.uint 10, Arg.uint 2] (World.init (some 7)) (by decide)⟩

/-! ## C7 -/

/-- C7: with no sink registered, `LOG` invokes no callback and writes nothing
to standard output; with a sink registered it invokes that sink exactly once,
with the same severity, options, format string and arguments, and writes
nothing itself.  In both cases the heap is left alone. -/
theorem LOG_forwards_unchanged (loc : SrcLoc) (cat : LOG_CATEGORY) (options : Nat)
    (format : CStr) (args : List Arg) (w : World) :
    stdout_lines (LOG loc cat options format args w).trace = stdout_lines w.trace ∧
    (LOG loc cat options format args w).heap = w.heap ∧
    sink_calls (LOG loc cat options format args w).trace =
      sink_calls w.trace ++
        (match xlogging_get_log_function w with
          | none => []
          | some l => [Event.sink l cat loc options format args]) := by
  unfold LOG xlogging_get_log_function
  cases hl : w.log_function <;>
    simp [emit, call_sink, hl, stdout_lines, sink_calls, xlogging_get_log_function]

/-! ## C9 -/

theorem va_passes_append (a b : List Event) :
    va_passes (a ++ b) = va_passes a + va_passes b := by
  simp [va_passes]

/-- C9 (defect in the code): whenever the dry run succeeds and the buffer is
allocated, `xlogging_vsprintf_char` hands the same `va_list` to `vsnprintf` a
second time, with no `va_copy` in between: two passes traverse the cursor.
For `divide(10, 0)`, one invalid-argument event, the trace holds two passes
over the cursor captured by the shim. -/
theorem va_list_traversed_twice :
    (∀ (L : Libc) (format : CStr) (va : va_list) (w : World),
      0 ≤ ret_of (L.format w.tick format va) →
      L.malloc_ok (w.tick + 1) (to_size_t L.size_width
        (wrap_int (ret_of (L.format w.tick format va) + 1))) = true →
      va_passes (xlogging_vsprintf_char L format va w).2.trace = va_passes w.trace + 2) ∧
    (divide_code [Arg.uint 10, Arg.uint 0]).invocations = 1 ∧
    va_passes (entry stdLibc lp64Inttypes example_loc divide_params divide_code
      [Arg.uint 10, Arg.uint 0] (World.init (some 7))).2.trace = 2 ∧
    (entry stdLibc lp64Inttypes example_loc divide_params divide_code
      [Arg.uint 10, Arg.uint 0] (World.init (some 7))).2.trace.filter
        (fun e => e = Event.va_pass [Arg.uint 10, Arg.uint 0])
      = [Event.va_pass [Arg.uint 10, Arg.uint 0], Event.va_pass [Arg.uint 10, Arg.uint 0]] := by
  refine ⟨?_, by decide, by decide, by decide⟩
  intro L format va w h0 hm
  rcases vsprintf_cases L format va w with ⟨h1, -⟩ | ⟨-, hm2, -⟩ | ⟨-, -, -, -, -, h | h⟩ |
    ⟨-, -, -, -, -, h, -⟩
  · omega
  · rw [hm] at hm2
    simp at hm2
  all_goals
    rw [h, va_passes_append]
    simp [va_passes]

/-! ## C10 -/

theorem vsprintf_requested (L : Libc) (format : CStr) (va : va_list) (w : World)
    (h0 : 0 ≤ ret_of (L.format w.tick format va)) :
    requested (xlogging_vsprintf_char L format va w).2.trace =
      requested w.trace ++
        [to_size_t L.size_width (wrap_int (ret_of (L.format w.tick format va) + 1))] := by
  rcases vsprintf_cases L format va w with ⟨h1, -⟩ | ⟨-, -, h⟩ | ⟨-, -, -, -, -, h | h⟩ |
    ⟨-, -, -, -, -, h, -⟩
  · omega
  all_goals
    rw [h]
    simp [requested]

/-- For a dry-run length below `INT_MAX` the request is the length plus one. -/
theorem vsprintf_requested_small (L : Libc) (format : CStr) (va : va_list) (w : World)
    (h0 : 0 ≤ ret_of (L.format w.tick format va))
    (h1 : ret_of (L.format w.tick format va) < INT_MAX) :
    requested (xlogging_vsprintf_char L format va w).2.trace =
      requested w.trace ++ [(ret_of (L.format w.tick format va) + 1).toNat] := by
  rw [vsprintf_requested L format va w h0]
  have h := size_request_small L.size_width _ h0 h1
  congr 2
  omega

theorem long_text_format : stdFormat "%s".toList [Arg.str long_text] = some long_text := by
  have e : "%s".toList = ['%', 's'] := rfl
  rw [e]
  simp only [stdFormat, convert]
  simp

theorem long_text_length : ret_of (some long_text) = 2147483647 := by
  have hl : long_text.length = 2147483647 := List.length_replicate _ _
  unfold ret_of
  simp only [hl, INT_MAX]
  norm_num

/-- On LP64 the wrapped `INT_MAX + 1` converts to a huge `size_t`. -/
theorem wrapped_request :
    to_size_t SizeWidth.w64 (wrap_int (2147483647 + 1)) = 18446744071562067968 := by
  decide

/-- With a 32-bit `size_t` the wrapped `INT_MAX + 1` converts back to 2147483648. -/
theorem wrapped_request_ilp32 :
    to_size_t SizeWidth.w32 (wrap_int (2147483647 + 1)) = 2147483648 := by
  decide

/-- C10 (defect in the code): for a dry-run length of `INT_MAX` the `int`
addition `neededSize + 1` wraps to `INT_MIN`; on an LP64 platform the size
requested from `malloc` (and the bound of the second pass) is then
18446744071562067968 bytes, not `INT_MAX + 1 = 2147483648`. -/
theorem vsprintf_request_wraps_at_int_max :
    ret_of (stdLibc.format (World.init none).tick "%s".toList [Arg.str long_text]) = INT_MAX ∧
    requested (xlogging_vsprintf_char stdLibc "%s".toList [Arg.str long_text]
      (World.init none)).2.trace = [18446744071562067968] ∧
    (18446744071562067968 : Int) ≠ INT_MAX + 1 := by
  have hfmt : stdLibc.format (World.init none).tick "%s".toList [Arg.str long_text]
      = some long_text := long_text_format
  have hlen : ret_of (stdLibc.format (World.init none).tick "%s".toList [Arg.str long_text])
      = 2147483647 := by
    rw [hfmt]
    exact long_text_length
  have h0 : 0 ≤ ret_of (stdLibc.format (World.init none).tick "%s".toList
      [Arg.str long_text]) := by
    rw [hlen]
    decide
  have hreq := vsprintf_requested stdLibc "%s".toList [Arg.str long_text] (World.init none) h0
  rw [hlen] at hreq
  refine ⟨hlen, ?_, by decide⟩
  rw [hreq]
  have hw : to_size_t stdLibc.size_width (wrap_int (2147483647 + 1)) = 18446744071562067968 :=
    wrapped_request
  rw [hw]
  rfl

end XLogging
